import Mathlib

/-!
Shallow embedding of `src/pishutdown.py`, a script that registers
falling-edge callbacks on two GPIO pins (BCM 23 for shutdown, BCM 24 for
reboot) with a 200 ms debounce, and then sleeps forever in 500 ms steps.
The RPi.GPIO library itself is not part of the repository; its observable
semantics (pin setup, edge-callback registration with debounce, and the
configuration errors) are modelled from the specification. The script's
own statements (the two callbacks and the exact sequence of library calls
it makes) are translated directly from the source.
-/

set_option linter.unusedVariables false

namespace PiShutdown

/-- Observable side effects of the script: `print` writes a diagnostic
line, `system` issues an operating-system command via `os.system`, and
`sleep` is a `time.sleep` call measured in milliseconds. -/
inductive Effect
  | print (s : String)
  | system (cmd : String)
  | sleep (ms : Nat)
deriving DecidableEq, Repr

/-- Embedding of `os.system(cmd)`: it produces the command-issuance effect
and an exit code determined by the environment `res`. The caller may
inspect the returned code or discard it. -/
def osSystem (res : String → Int) (cmd : String) : List Effect × Int :=
  ([Effect.system cmd], res cmd)

/-- Translation of `def shutdown(pin)` from the source: prints
"shutting down", then runs `os.system("sudo shutdown -h now")`, whose
exit code (the `Int` component of `osSystem`) is discarded. -/
def shutdown (res : String → Int) (pin : Nat) : List Effect :=
  Effect.print "shutting down" :: (osSystem res "sudo shutdown -h now").1

/-- Translation of `def reboot(pin)` from the source: prints "rebooting",
then runs `os.system("sudo reboot")`, discarding the exit code. -/
def reboot (res : String → Int) (pin : Nat) : List Effect :=
  Effect.print "rebooting" :: (osSystem res "sudo reboot").1

/-- Pin-numbering modes of the GPIO library: `BCM` is the logical
(Broadcom channel) scheme, `BOARD` the physical header numbering. -/
inductive Mode
  | BCM
  | BOARD
deriving DecidableEq, Repr

/-- Pin directions offered by the GPIO library. -/
inductive Dir
  | IN
  | OUT
deriving DecidableEq, Repr

/-- Internal pull resistor configuration; `off` is the library default
when the caller passes no pull argument, as this script does. -/
inductive Pull
  | off
  | up
  | down
deriving DecidableEq, Repr

/-- Edge kinds accepted by `add_event_detect`. -/
inductive Edge
  | FALLING
  | RISING
  | BOTH
deriving DecidableEq, Repr

/-- Names of the two callbacks the script registers; dispatch to their
bodies is by `runCb`. -/
inductive CbId
  | shutdownCb
  | rebootCb
deriving DecidableEq, Repr

/-- Dispatch a registered callback name to the source function it names. -/
def runCb : CbId → (String → Int) → Nat → List Effect
  | CbId.shutdownCb, res, pin => shutdown res pin
  | CbId.rebootCb, res, pin => reboot res pin

/-- Configuration of one pin after `setup`. -/
structure PinCfg where
  dir : Dir
  pull : Pull
deriving DecidableEq, Repr

/-- One edge-callback registration made by `add_event_detect`. -/
structure GpioReg where
  pin : Nat
  edge : Edge
  cb : CbId
  bouncetime : Nat
deriving DecidableEq, Repr

/-- Process-wide state of the GPIO subsystem: the numbering mode, the
pins configured as of now (in setup order), and the callback
registrations (in registration order). -/
structure GpioState where
  mode : Option Mode
  pins : List (Nat × PinCfg)
  regs : List GpioReg
deriving DecidableEq, Repr

/-- The GPIO state at process start: no mode, no pins, no registrations. -/
def GpioState.init : GpioState :=
  { mode := none, pins := [], regs := [] }

/-- Modelled from the spec: startup failures of the GPIO subsystem. The
spec names a single fatal `ConfigurationError` raised when "a pin
identifier is invalid or already claimed by another registration"; the
constructors record which condition fired. -/
inductive ConfigurationError
  | invalidPin (p : Nat)
  | alreadyClaimed (p : Nat)
  | notConfigured (p : Nat)
deriving DecidableEq, Repr

/-- Modelled from the spec: a valid pin identifier is "a positive integer
constrained to the platform's valid addressable-pin set" (BCM channels
run up to 27 on the target board). -/
def validPin (p : Nat) : Bool :=
  decide (0 < p) && decide (p ≤ 27)

/-- Embedding of `GPIO.setmode`: records the numbering scheme. -/
def setmode (m : Mode) (s : GpioState) : GpioState :=
  { s with mode := some m }

/-- Modelled from the spec: `GPIO.setup(pin, dir)` configures a pin as a
digital input; it fails with `ConfigurationError` if the pin identifier
is invalid or the pin is already claimed. -/
def setup (p : Nat) (d : Dir) (u : Pull) (s : GpioState) :
    Except ConfigurationError GpioState :=
  if ¬ validPin p then Except.error (ConfigurationError.invalidPin p)
  else if s.pins.any (fun x => x.1 == p) then
    Except.error (ConfigurationError.alreadyClaimed p)
  else Except.ok { s with pins := s.pins ++ [(p, { dir := d, pull := u })] }

/-- Modelled from the spec: `GPIO.add_event_detect(pin, edge, callback,
bouncetime)` registers one edge callback on a configured pin; it fails
with `ConfigurationError` if the pin was never set up or already carries
a registration. -/
def add_event_detect (p : Nat) (e : Edge) (cb : CbId) (bounce : Nat)
    (s : GpioState) : Except ConfigurationError GpioState :=
  if ¬ s.pins.any (fun x => x.1 == p) then
    Except.error (ConfigurationError.notConfigured p)
  else if s.regs.any (fun r => r.pin == p) then
    Except.error (ConfigurationError.alreadyClaimed p)
  else Except.ok
    { s with regs := s.regs ++ [{ pin := p, edge := e, cb := cb, bouncetime := bounce }] }

/-- The script's initialization sequence, translated call for call from
the source (`setmode BCM`; `setup pin_a`; `add_event_detect pin_a FALLING
shutdown 200`; `setup pin_b`; `add_event_detect pin_b FALLING reboot
200`), generalized over the two pin identifiers as the spec's
`initialize(pin_a, pin_b)`. Returns the GPIO state reached together with
the error that aborted the sequence, if any: side effects on the GPIO
subsystem performed before a failure persist. -/
def initRun (pa pb : Nat) : GpioState × Option ConfigurationError :=
  let s0 := setmode Mode.BCM GpioState.init
  match setup pa Dir.IN Pull.off s0 with
  | Except.error e => (s0, some e)
  | Except.ok s1 =>
    match add_event_detect pa Edge.FALLING CbId.shutdownCb 200 s1 with
    | Except.error e => (s1, some e)
    | Except.ok s2 =>
      match setup pb Dir.IN Pull.off s2 with
      | Except.error e => (s2, some e)
      | Except.ok s3 =>
        match add_event_detect pb Edge.FALLING CbId.rebootCb 200 s3 with
        | Except.error e => (s3, some e)
        | Except.ok s4 => (s4, none)

/-- Spec operation `initialize(pin_a, pin_b)`: the final GPIO state on
success, or the `ConfigurationError` that aborted startup. -/
def initOp (pa pb : Nat) : Except ConfigurationError GpioState :=
  match initRun pa pb with
  | (s, none) => Except.ok s
  | (_, some e) => Except.error e

/-- The registrations the script makes at process start (pins 23 and 24,
as hard-coded in the source). -/
def progRegs : List GpioReg :=
  (initRun 23 24).1.regs

/-- Whether the script reaches the main loop: it does exactly when
initialization raised no `ConfigurationError`. -/
def entersMainLoop (pa pb : Nat) : Bool :=
  (initRun pa pb).2.isNone

/-- Modelled from the spec: the debounce filter. A falling edge at time
`t` (milliseconds since process start) is delivered when the pin has no
prior triggered callback (`last = none`), or when at least `bounce`
milliseconds have elapsed since the prior triggered callback — "any
additional falling edges on the same pin within 200ms of a prior
triggered callback are ignored". -/
def debouncePermits (last : Option Nat) (bounce t : Nat) : Bool :=
  match last with
  | none => true
  | some l => decide (bounce ≤ t - l)

/-- The time of the last triggered callback on pin `p`, if any, in the
per-pin debounce ledger `st`. -/
def lastOf (p : Nat) (st : List (Nat × Nat)) : Option Nat :=
  (st.find? (fun x => x.1 == p)).map (fun x => x.2)

/-- Modelled from the spec: delivery of one falling edge `(pin, time)` by
the platform's interrupt mechanism. If some registration covers the pin
and the debounce filter permits, the registered callback runs (producing
its effects) and the pin's last-trigger time is updated; otherwise the
edge is ignored. Returns the updated ledger, whether the callback fired,
and the effects produced. -/
def processEdge (res : String → Int) (regs : List GpioReg)
    (st : List (Nat × Nat)) (e : Nat × Nat) :
    List (Nat × Nat) × Bool × List Effect :=
  match regs.find? (fun r => r.pin == e.1) with
  | none => (st, false, [])
  | some r =>
    if debouncePermits (lastOf e.1 st) r.bouncetime e.2 then
      ((e.1, e.2) :: st.filter (fun x => x.1 != e.1), true, runCb r.cb res e.1)
    else (st, false, [])

/-- Delivery of a time-ordered sequence of falling edges, threading the
debounce ledger. Returns the final ledger, the list of edges whose
callback fired, and the concatenated effects. -/
def processEdges (res : String → Int) (regs : List GpioReg) :
    List (Nat × Nat) → List (Nat × Nat) →
    List (Nat × Nat) × List (Nat × Nat) × List Effect
  | st, [] => (st, [], [])
  | st, e :: es =>
    let step := processEdge res regs st e
    let rest := processEdges res regs step.1 es
    (rest.1, (if step.2.1 then [e] else []) ++ rest.2.1, step.2.2 ++ rest.2.2)

/-- Edge delivery starting from process start (empty debounce ledger). -/
def runEdges (res : String → Int) (regs : List GpioReg)
    (edges : List (Nat × Nat)) : List (Nat × Nat) × List Effect :=
  let r := processEdges res regs [] edges
  (r.2.1, r.2.2)

/-- Translation of the source's `while True: time.sleep(.5)`, indexed by
the number of completed iterations observed: each iteration performs
exactly one 500 ms sleep and nothing else. -/
def mainLoop : Nat → List Effect
  | 0 => []
  | n + 1 => Effect.sleep 500 :: mainLoop n

/-- Whether an effect is the issuance of an operating-system command. -/
def isSystemCmd : Effect → Bool
  | Effect.system _ => true
  | _ => false

/-- The process entry point. The script consults no command-line
arguments, environment, or configuration (`argv` is ignored); it runs the
hard-coded initialization on BCM pins 23 and 24. -/
def processEntry (argv : List String) : GpioState × Option ConfigurationError :=
  initRun 23 24

/-- A whole run of the program: initialization on pins 23 and 24, then —
if initialization succeeded — asynchronous delivery of the falling edges
in `edges` while the main thread completes `n` sleep iterations. The
trace lists callback effects before the sleeps; `res` gives the exit code
the environment returns for each issued command. -/
def programRun (res : String → Int) (edges : List (Nat × Nat)) (n : Nat) :
    List Effect :=
  match initRun 23 24 with
  | (s, none) => (runEdges res s.regs edges).2 ++ mainLoop n
  | (_, some _) => []

/-! Helper lemmas shared by the claim theorems. -/

/-- Both callbacks produce the same effects whatever exit codes the
environment returns: neither source function looks at `os.system`'s
return value. -/
theorem runCb_res_irrel (c : CbId) (res res' : String → Int) (p : Nat) :
    runCb c res p = runCb c res' p := by
  cases c <;> rfl

/-- One edge-delivery step is unchanged when the environment's exit codes
change. -/
theorem processEdge_res_irrel (res res' : String → Int) (regs : List GpioReg)
    (st : List (Nat × Nat)) (e : Nat × Nat) :
    processEdge res regs st e = processEdge res' regs st e := by
  unfold processEdge
  cases h : regs.find? (fun r => r.pin == e.1) with
  | none => rfl
  | some r =>
    by_cases hp : debouncePermits (lastOf e.1 st) r.bouncetime e.2 <;>
      simp [hp, runCb_res_irrel r.cb res res' e.1]

/-- Edge delivery over a whole edge sequence is unchanged when the
environment's exit codes change. -/
theorem processEdges_res_irrel (res res' : String → Int) (regs : List GpioReg)
    (es : List (Nat × Nat)) : ∀ st : List (Nat × Nat),
    processEdges res regs st es = processEdges res' regs st es := by
  induction es with
  | nil => intro st; rfl
  | cons e es ih =>
    intro st
    simp only [processEdges, processEdge_res_irrel res res' regs st e, ih]

/-- The registrations the script makes, computed: the shutdown callback
on pin 23 and the reboot callback on pin 24, both falling-edge with a
200 ms debounce. -/
theorem progRegs_eq : progRegs =
    [{ pin := 23, edge := Edge.FALLING, cb := CbId.shutdownCb, bouncetime := 200 },
     { pin := 24, edge := Edge.FALLING, cb := CbId.rebootCb, bouncetime := 200 }] :=
  rfl

/-- A debounce ledger whose entries all concern pin 23 has no record for
pin 24. -/
theorem lastOf_24_none (st : List (Nat × Nat)) (hst : ∀ x ∈ st, x.1 = 23) :
    lastOf 24 st = none := by
  unfold lastOf
  rw [List.find?_eq_none.mpr]
  · rfl
  · intro x hx
    have h23 := hst x hx
    simp [h23]

/-- Delivering a pin-24 edge after any sequence of pin-23 edges appends
exactly the reboot callback's effects, and the pin-23 prefix produces
neither the "rebooting" notification nor the reboot command. -/
theorem processEdges_shutdown_only (res : String → Int) (t : Nat) :
    ∀ (es : List (Nat × Nat)) (st : List (Nat × Nat)),
    (∀ e ∈ es, e.1 = 23) → (∀ x ∈ st, x.1 = 23) →
    (processEdges res progRegs st (es ++ [(24, t)])).2.2 =
      (processEdges res progRegs st es).2.2 ++
        [Effect.print "rebooting", Effect.system "sudo reboot"] ∧
    (processEdges res progRegs st es).2.2.count (Effect.print "rebooting") = 0 ∧
    (processEdges res progRegs st es).2.2.count (Effect.system "sudo reboot") = 0 := by
  intro es
  induction es with
  | nil =>
    intro st hes hst
    refine ⟨?_, rfl, rfl⟩
    simp [processEdges, processEdge, progRegs_eq, lastOf_24_none st hst,
      debouncePermits, runCb, reboot, osSystem]
  | cons e es ih =>
    intro st hes hst
    have he : e.1 = 23 := hes e (List.mem_cons_self e es)
    have hes' : ∀ x ∈ es, x.1 = 23 := fun x hx => hes x (List.mem_cons_of_mem e hx)
    have hfind : progRegs.find? (fun r => r.pin == e.1) =
        some { pin := 23, edge := Edge.FALLING, cb := CbId.shutdownCb, bouncetime := 200 } := by
      simp [progRegs_eq, he]
    cases hp : debouncePermits (lastOf e.1 st) 200 e.2 with
    | true =>
      have hst' : ∀ x ∈ (e.1, e.2) :: st.filter (fun x => x.1 != e.1), x.1 = 23 := by
        intro x hx
        rcases List.mem_cons.mp hx with hx | hx
        · rw [hx]; exact he
        · exact hst x (List.mem_of_mem_filter hx)
      have hrec := ih ((e.1, e.2) :: st.filter (fun x => x.1 != e.1)) hes' hst'
      simp only [List.cons_append, processEdges, processEdge, hfind, hp, if_true,
        List.append_eq]
      refine ⟨?_, ?_, ?_⟩
      · rw [hrec.1]
        simp [runCb, shutdown, osSystem]
      · simp [runCb, shutdown, osSystem, List.count_cons, hrec.2.1]
      · simp [runCb, shutdown, osSystem, List.count_cons, hrec.2.2]
    | false =>
      have hrec := ih st hes' hst
      simp only [List.cons_append, processEdges, processEdge, hfind, hp,
        Bool.false_eq_true, if_false, List.append_eq]
      refine ⟨?_, ?_, ?_⟩
      · rw [hrec.1]
        simp
      · simpa using hrec.2.1
      · simpa using hrec.2.2

/-! The claims. -/

/-- C1: a debounce-permitted falling edge on the shutdown pin (here more
than 200 ms after process start, with no earlier edge) makes the shutdown
callback emit the "shutting down" notification exactly once and then
issue exactly one OS shutdown command, in that order, and the delivered
trace does not depend on the command's exit code (fire-and-forget, no
retry). -/
theorem shutdown_edge_effects (res res' : String → Int) (t : Nat)
    (h : 200 < t) :
    runEdges res progRegs [(23, t)] =
      ([(23, t)],
       [Effect.print "shutting down", Effect.system "sudo shutdown -h now"]) ∧
    (runEdges res progRegs [(23, t)]).2.count (Effect.print "shutting down") = 1 ∧
    (runEdges res progRegs [(23, t)]).2.count (Effect.system "sudo shutdown -h now") = 1 ∧
    runEdges res progRegs [(23, t)] = runEdges res' progRegs [(23, t)] := by
  refine ⟨rfl, ?_, ?_, rfl⟩ <;> rfl

/-- Witness for C1 at `t = 300` with exit-code environments `0` and `1`. -/
theorem shutdown_edge_effects_witness :
    200 < 300 ∧
    runEdges (fun _ => 0) progRegs [(23, 300)] =
      ([(23, 300)],
       [Effect.print "shutting down", Effect.system "sudo shutdown -h now"]) :=
  ⟨by decide, (shutdown_edge_effects (fun _ => 0) (fun _ => 1) 300 (by decide)).1⟩

/-- C2: delivering a falling edge on the reboot pin after any sequence of
shutdown-pin edges appends exactly the "rebooting" notification followed
by exactly one OS reboot command, so over the whole trace each occurs
exactly once — independent of the shutdown-pin activity. -/
theorem reboot_edge_effects (res : String → Int) (es : List (Nat × Nat))
    (t : Nat) (hes : ∀ e ∈ es, e.1 = 23) :
    (runEdges res progRegs (es ++ [(24, t)])).2 =
      (runEdges res progRegs es).2 ++
        [Effect.print "rebooting", Effect.system "sudo reboot"] ∧
    (runEdges res progRegs (es ++ [(24, t)])).2.count (Effect.print "rebooting") = 1 ∧
    (runEdges res progRegs (es ++ [(24, t)])).2.count (Effect.system "sudo reboot") = 1 := by
  have h := processEdges_shutdown_only res t es [] hes (by intro x hx; cases hx)
  unfold runEdges
  refine ⟨h.1, ?_, ?_⟩
  · rw [h.1, List.count_append, h.2.1]
    rfl
  · rw [h.1, List.count_append, h.2.2]
    rfl

/-- Witness for C2: one prior shutdown-pin edge, then a reboot-pin edge. -/
theorem reboot_edge_effects_witness :
    (∀ e ∈ [((23 : Nat), (100 : Nat))], e.1 = 23) ∧
    (runEdges (fun _ => 0) progRegs ([(23, 100)] ++ [(24, 150)])).2.count
      (Effect.print "rebooting") = 1 :=
  ⟨by decide,
   (reboot_edge_effects (fun _ => 0) [(23, 100)] 150 (by decide)).2.1⟩

/-- C3: for either registered pin, two falling edges within 200 ms of
each other trigger the callback exactly once — the first edge fires, the
second is debounced, and the single callback run contributes exactly its
two effects. -/
theorem debounce_two_edges (res : String → Int) (p t1 t2 : Nat)
    (hp : p = 23 ∨ p = 24) (hle : t1 ≤ t2) (hlt : t2 - t1 < 200) :
    (runEdges res progRegs [(p, t1), (p, t2)]).1 = [(p, t1)] ∧
    (runEdges res progRegs [(p, t1), (p, t2)]).2.length = 2 := by
  have hnot : ¬ (200 ≤ t2 - t1) := by omega
  rcases hp with hp | hp <;> subst hp <;>
    simp [runEdges, processEdges, processEdge, progRegs_eq, lastOf,
      debouncePermits, hnot, runCb, shutdown, reboot, osSystem]

/-- Witness for C3 on pin 23 with edges at 300 ms and 400 ms. -/
theorem debounce_two_edges_witness :
    ((23 : Nat) = 23 ∨ (23 : Nat) = 24) ∧ (300 : Nat) ≤ 400 ∧
    (400 : Nat) - 300 < 200 ∧
    (runEdges (fun _ => 0) progRegs [(23, 300), (23, 400)]).1 = [(23, 300)] :=
  ⟨Or.inl rfl, by decide, by decide,
   (debounce_two_edges (fun _ => 0) 23 300 400 (Or.inl rfl) (by decide)
     (by decide)).1⟩

/-- C4 counterexample: running initialization with pin 23 for both
buttons does fail with `ConfigurationError`, but at the point of failure
the shutdown callback is already registered — one registration, not the
zero the claim asserts. -/
theorem initOp_duplicate_counterexample :
    (initRun 23 23).2 = some (ConfigurationError.alreadyClaimed 23) ∧
    (initRun 23 23).1.regs =
      [{ pin := 23, edge := Edge.FALLING, cb := CbId.shutdownCb, bouncetime := 200 }] ∧
    (initRun 23 23).1.regs ≠ [] := by
  refine ⟨rfl, rfl, ?_⟩
  decide

/-- C4 amended: initialization fails with `ConfigurationError` for an
invalid pin identifier or a duplicated pin, and with a duplicate pin the
process aborts before the main loop; however the calls run in source
order, so the shutdown callback — registered before the duplicate is
detected — remains the single registration (not zero). With an invalid
first pin the failure precedes any registration. -/
theorem initOp_duplicate_behavior (p : Nat) :
    (validPin p = true →
      initOp p p = Except.error (ConfigurationError.alreadyClaimed p) ∧
      (initRun p p).1.regs =
        [{ pin := p, edge := Edge.FALLING, cb := CbId.shutdownCb, bouncetime := 200 }] ∧
      entersMainLoop p p = false) ∧
    (validPin p = false →
      initOp p p = Except.error (ConfigurationError.invalidPin p) ∧
      (initRun p p).1.regs = [] ∧
      entersMainLoop p p = false) := by
  constructor
  · intro hv
    refine ⟨?_, ?_, ?_⟩ <;>
      simp [initOp, initRun, entersMainLoop, setmode, setup, add_event_detect,
        GpioState.init, hv]
  · intro hv
    refine ⟨?_, ?_, ?_⟩ <;>
      simp [initOp, initRun, entersMainLoop, setmode, setup, add_event_detect,
        GpioState.init, hv]

/-- Witness for C4's amended claim at pin 23. -/
theorem initOp_duplicate_behavior_witness :
    validPin 23 = true ∧
    initOp 23 23 = Except.error (ConfigurationError.alreadyClaimed 23) ∧
    (initRun 23 23).1.regs =
      [{ pin := 23, edge := Edge.FALLING, cb := CbId.shutdownCb, bouncetime := 200 }] ∧
    entersMainLoop 23 23 = false :=
  ⟨by decide, (initOp_duplicate_behavior 23).1 (by decide)⟩

/-- C5: the main loop only ever sleeps in fixed 500 ms increments — after
`n` iterations the trace is exactly `n` sleeps and contains zero command
issuances — and a whole program run with no edge events issues zero
commands however many sleep cycles elapse. -/
theorem mainLoop_only_sleeps (res : String → Int) (n : Nat) :
    mainLoop n = List.replicate n (Effect.sleep 500) ∧
    (mainLoop n).countP isSystemCmd = 0 ∧
    programRun res [] n = mainLoop n ∧
    (programRun res [] n).countP isSystemCmd = 0 := by
  have hrep : ∀ m : Nat, mainLoop m = List.replicate m (Effect.sleep 500) := by
    intro m
    induction m with
    | zero => rfl
    | succ k ih => simp [mainLoop, ih, List.replicate_succ]
  have hcount : (mainLoop n).countP isSystemCmd = 0 := by
    rw [hrep n]
    induction n with
    | zero => rfl
    | succ k ih => simp [List.replicate_succ, List.countP_cons, isSystemCmd, ih]
  exact ⟨hrep n, hcount, rfl, hcount⟩

/-- C6: for any two distinct valid pin identifiers, initialization
succeeds, ending with exactly two registrations — the shutdown callback
on the first pin and the reboot callback on the second, each registered
once, falling-edge, 200 ms debounce — and both pins set up as inputs. -/
theorem initOp_distinct_valid_succeeds (pa pb : Nat)
    (ha : validPin pa = true) (hb : validPin pb = true) (hne : pa ≠ pb) :
    initOp pa pb = Except.ok
      { mode := some Mode.BCM,
        pins := [(pa, { dir := Dir.IN, pull := Pull.off }),
                 (pb, { dir := Dir.IN, pull := Pull.off })],
        regs := [{ pin := pa, edge := Edge.FALLING, cb := CbId.shutdownCb, bouncetime := 200 },
                 { pin := pb, edge := Edge.FALLING, cb := CbId.rebootCb, bouncetime := 200 }] } := by
  simp [initOp, initRun, setmode, setup, add_event_detect, GpioState.init,
    ha, hb, hne, Ne.symm hne]

/-- Witness for C6 at the script's own pins, 23 and 24. -/
theorem initOp_distinct_valid_succeeds_witness :
    validPin 23 = true ∧ validPin 24 = true ∧ (23 : Nat) ≠ 24 ∧
    initOp 23 24 = Except.ok
      { mode := some Mode.BCM,
        pins := [(23, { dir := Dir.IN, pull := Pull.off }),
                 (24, { dir := Dir.IN, pull := Pull.off })],
        regs := [{ pin := 23, edge := Edge.FALLING, cb := CbId.shutdownCb, bouncetime := 200 },
                 { pin := 24, edge := Edge.FALLING, cb := CbId.rebootCb, bouncetime := 200 }] } :=
  ⟨by decide, by decide, by decide,
   initOp_distinct_valid_succeeds 23 24 (by decide) (by decide) (by decide)⟩

/-- C7: the exit code of the privileged command is never inspected: each
callback's effects, and the whole program trace, are identical under any
two exit-code environments — in particular a failing command (nonzero
exit code) neither crashes nor alters the monitoring loop, and no retry
occurs. -/
theorem command_result_never_inspected (res res' : String → Int) (p : Nat)
    (edges : List (Nat × Nat)) (n : Nat) :
    shutdown res p = shutdown res' p ∧
    reboot res p = reboot res' p ∧
    programRun res edges n = programRun res' edges n := by
  refine ⟨rfl, rfl, ?_⟩
  unfold programRun runEdges
  rw [show initRun 23 24 = ((initRun 23 24).1, none) from rfl]
  simp only [processEdges_res_irrel res res' (initRun 23 24).1.regs edges]

/-- C8: initialization sets the logical (BCM) numbering scheme and
configures both pins as plain digital inputs with no internal pull-up
(the library's pull argument stays at its `off` default). -/
theorem initRun_pin_config :
    (initRun 23 24).1.mode = some Mode.BCM ∧
    (initRun 23 24).1.pins =
      [(23, { dir := Dir.IN, pull := Pull.off }),
       (24, { dir := Dir.IN, pull := Pull.off })] :=
  ⟨rfl, rfl⟩

/-- C9: both callbacks ignore their pin argument: for any two pin values
the produced effects are identical, so the pin argument has no influence
on observable behavior. -/
theorem callbacks_ignore_pin (res : String → Int) (p p' : Nat) :
    shutdown res p = shutdown res p' ∧ reboot res p = reboot res p' :=
  ⟨rfl, rfl⟩

/-- C10: the pin identifiers and commands are fixed constants — pin 23
with "sudo shutdown -h now" and pin 24 with "sudo reboot" — and no
process input (argv) changes them. -/
theorem constants_fixed (argv argv' : List String) (res : String → Int)
    (p : Nat) :
    processEntry argv = processEntry argv' ∧
    (processEntry argv).1.regs =
      [{ pin := 23, edge := Edge.FALLING, cb := CbId.shutdownCb, bouncetime := 200 },
       { pin := 24, edge := Edge.FALLING, cb := CbId.rebootCb, bouncetime := 200 }] ∧
    shutdown res p = [Effect.print "shutting down", Effect.system "sudo shutdown -h now"] ∧
    reboot res p = [Effect.print "rebooting", Effect.system "sudo reboot"] :=
  ⟨rfl, rfl, rfl, rfl⟩

end PiShutdown
